import Mathlib

/-!
# Verification of the sentinel-edge-ai mesh codec, node table and alert state machine

Shallow embedding of the core of the `sentinel-edge-ai` repository:

* `src/network/lora_mesh.cpp` / `lora_mesh.h` — the binary message codec
  (`serializeMessage` / `deserializeMessage`), the peer node table
  (`processMessage`, `cleanupStaleNodes`, `getActiveNodeCount`,
  `getDetectingNodeCount`) and the receive path (`receiveLoop`);
* `src/core/sentinel_core.cpp` — the alert state machine
  (`updateAlertState`, `evaluateConsensus`).

Bytes are modelled as `Nat` (every field of the wire frame is a single
`uint8_t`; frames are `List Nat`); monotonic-clock instants are `Int`;
the float consensus threshold/ratio is modelled over `ℚ`.  Functions that
log an error condition in C++ (the only error channel the code has) are
modelled as returning an `Option DecodeError` alongside their result.
-/

namespace Sentinel

/-- The three wire message types of `lora_mesh.cpp`:
`MSG_TYPE_HEARTBEAT = 0x01`, `MSG_TYPE_DETECTION = 0x02`,
`MSG_TYPE_ACK = 0x03`. -/
def MSG_TYPE_HEARTBEAT : Nat := 0x01

/-- `MSG_TYPE_DETECTION = 0x02` in `lora_mesh.cpp`. -/
def MSG_TYPE_DETECTION : Nat := 0x02

/-- `MSG_TYPE_ACK = 0x03` in `lora_mesh.cpp`. -/
def MSG_TYPE_ACK : Nat := 0x03

/-- `MAX_PAYLOAD_SIZE = 64` in `lora_mesh.h`. -/
def MAX_PAYLOAD_SIZE : Nat := 64

/-- A `MeshMessage` of `lora_mesh.h`, minus the receiver-assigned
timestamp.  The C++ struct carries a 64-byte array plus a `payload_len`;
here the meaningful prefix of the array is the list `payload`, whose
length plays the role of `payload_len`. -/
structure MeshMessage where
  type : Nat
  source_id : Nat
  destination_id : Nat
  payload : List Nat
  deriving DecidableEq, Repr

/-- The decode error conditions of `deserializeMessage`, observable only
through the logger: `Logger::error("Invalid message length")` (`tooShort`),
`Logger::error("Payload too large")` (`payloadTooLarge`) and
`Logger::warn("Checksum mismatch")` (`checksumMismatch`). -/
inductive DecodeError where
  | tooShort
  | payloadTooLarge
  | checksumMismatch
  deriving DecidableEq, Repr

/-- The XOR checksum loop of `serializeMessage` / `deserializeMessage`:
byte-wise XOR of a byte sequence.  (XOR of values `< 256` stays `< 256`.) -/
def xorChecksum (l : List Nat) : Nat :=
  l.foldl Nat.xor 0

/-- `LoraMesh::serializeMessage`: emits
`[type][source][destination][payload_len][payload...][checksum]`,
the checksum being the XOR of every preceding byte of the frame. -/
def serializeMessage (msg : MeshMessage) : List Nat :=
  let header := [msg.type, msg.source_id, msg.destination_id, msg.payload.length]
  let body := header ++ msg.payload
  body ++ [xorChecksum body]

/-- `LoraMesh::deserializeMessage (buffer, len)`.

`buf` is the caller's receive buffer (a 256-byte array in `receiveLoop`,
of which only the first `len` bytes were actually received; the function
indexes `buf` directly and nothing stops it reading past `len`).  `dflt`
is the default-constructed `MeshMessage msg` the function starts from:
the C++ struct has no initializers, so its fields are indeterminate, and
on the `len < 5` path it is returned unchanged.  Returns the message
together with the error condition the function logs (`none` when no
error is logged). -/
def deserializeMessage (dflt : MeshMessage) (buf : List Nat) (len : Nat) :
    MeshMessage × Option DecodeError :=
  if len < 5 then
    (dflt, some .tooShort)
  else
    let ty := buf.getD 0 0
    let src := buf.getD 1 0
    let dst := buf.getD 2 0
    let plen := buf.getD 3 0
    if plen > MAX_PAYLOAD_SIZE then
      -- the code sets msg.payload_len = 0 and returns: header fields are
      -- already assigned, the payload array keeps its indeterminate bytes
      ({ dflt with type := ty, source_id := src, destination_id := dst,
                   payload := [] }, some .payloadTooLarge)
    else
      let payload := (buf.drop 4).take plen
      let received := buf.getD (4 + plen) 0
      let calculated := xorChecksum (buf.take (4 + plen))
      ({ type := ty, source_id := src, destination_id := dst,
         payload := payload },
       if received ≠ calculated then some .checksumMismatch else none)

/-- A `NodeInfo` record of `lora_mesh.h`. -/
structure NodeInfo where
  node_id : Nat
  detecting : Bool
  last_seen : Int
  rssi : Int
  deriving DecidableEq, Repr

/-- The value `std::map::operator[]` creates for an absent key:
`NodeInfo` has no user-provided constructor, so the mapped value is
value-initialized — every member zero/false. -/
def defaultNodeInfo : NodeInfo :=
  { node_id := 0, detecting := false, last_seen := 0, rssi := 0 }

/-- The `active_nodes_` map of `LoraMesh`, as an association list keyed
by node id (`std::map<uint8_t, NodeInfo>` has unique keys). -/
def NodeTable := List (Nat × NodeInfo)
  deriving DecidableEq

/-- Lookup in the node table (`active_nodes_.find`-like read). -/
def tableFind (t : NodeTable) (k : Nat) : Option NodeInfo :=
  match t with
  | [] => none
  | (k', v) :: rest => if k' = k then some v else tableFind rest k

/-- Write-back of `active_nodes_[k] = v`: replace the entry when the key
is present, append it otherwise (key uniqueness is preserved). -/
def tableSet (t : NodeTable) (k : Nat) (v : NodeInfo) : NodeTable :=
  match t with
  | [] => [(k, v)]
  | (k', v') :: rest =>
      if k' = k then (k, v) :: rest else (k', v') :: tableSet rest k v

/-- The keys of the node table. -/
def tableKeys (t : NodeTable) : List Nat :=
  t.map Prod.fst

/-- `LoraMesh::getActiveNodeCount`: `active_nodes_.size()`. -/
def getActiveNodeCount (t : NodeTable) : Nat :=
  t.length

/-- `LoraMesh::getDetectingNodeCount`: counts the entries whose
`detecting` flag is set. -/
def getDetectingNodeCount (t : NodeTable) : Nat :=
  t.countP (fun p => p.2.detecting)

/-- `LoraMesh::processMessage`, parameterized by the local `node_id_`
and the steady-clock instant `now` at which it runs.  Returns the
updated table together with the list of detection-callback invocations
`(source, detecting)` it makes (the callback is registered by
`SentinelCore::initialize`).  Messages from self are dropped first;
otherwise `active_nodes_[msg.source_id]` is created (value-initialized)
or fetched, its `node_id` and `last_seen` are set, and only a
`MSG_TYPE_DETECTION` message also sets `detecting` from `payload[0]`
(on an empty payload the C++ reads an indeterminate array byte; the
model reads 0). -/
def processMessage (node_id : Nat) (now : Int) (t : NodeTable)
    (msg : MeshMessage) : NodeTable × List (Nat × Bool) :=
  if msg.source_id = node_id then
    (t, [])
  else
    let node0 := (tableFind t msg.source_id).getD defaultNodeInfo
    let node1 := { node0 with node_id := msg.source_id, last_seen := now }
    if msg.type = MSG_TYPE_DETECTION then
      let node2 := { node1 with detecting := msg.payload.headD 0 == 1 }
      (tableSet t msg.source_id node2, [(msg.source_id, node2.detecting)])
    else
      (tableSet t msg.source_id node1, [])

/-- `LoraMesh::cleanupStaleNodes`: erases every record with
`now - last_seen > node_timeout_sec`. -/
def cleanupStaleNodes (node_timeout_sec : Int) (now : Int) (t : NodeTable) :
    NodeTable :=
  t.filter (fun p => ¬ now - p.2.last_seen > node_timeout_sec)

/-- One iteration of the body of `LoraMesh::receiveLoop` on a non-idle
link: `receiveData` filled `buf` with `len > 0` bytes, the frame is
decoded (from the 256-byte caller buffer `buf` whose bytes past `len`
are stale) and the result is passed to `processMessage` — unconditionally,
whatever `deserializeMessage` logged. -/
def receiveStep (node_id : Nat) (now : Int) (dflt : MeshMessage)
    (t : NodeTable) (buf : List Nat) (len : Nat) :
    NodeTable × List (Nat × Bool) :=
  if 0 < len then
    processMessage node_id now t (deserializeMessage dflt buf len).1
  else
    (t, [])

/-- `AlertState` of `sentinel_core.h`. -/
inductive AlertState where
  | IDLE
  | PENDING
  | ALERT
  deriving DecidableEq, Repr

/-- The configuration fields of `Config` that drive the alert state
machine.  `consensus_threshold` is a `float` in the source, modelled
over `ℚ`. -/
structure Config where
  consensus_threshold : ℚ
  consensus_timeout_sec : Int
  alert_duration_sec : Int
  deriving DecidableEq

/-- The alert-relevant state of `SentinelCore`: `alert_state_`,
`consensus_start_time_` and `alert_start_time_` (steady-clock instants
as `Int`). -/
structure CoreState where
  alert_state : AlertState
  consensus_start_time : Int
  alert_start_time : Int
  deriving DecidableEq, Repr

/-- `SentinelCore::evaluateConsensus`, with the mesh counts and the
detection snapshot it reads passed explicitly.  Returns the updated
state and whether `triggerAlert` (the alert sink) was invoked.
`total_nodes = mesh_active + 1` (self), `detecting_nodes =
mesh_detecting + (sensor or vision detected ? 1 : 0)`, and the float
ratio `detecting_nodes / total_nodes` is modelled as a rational. -/
def evaluateConsensus (cfg : Config) (now : Int)
    (mesh_active mesh_detecting : Nat) (sensor_detected vision_detected : Bool)
    (s : CoreState) : CoreState × Bool :=
  let total_nodes : Nat := mesh_active + 1
  let detecting_nodes : Nat :=
    mesh_detecting + (if sensor_detected || vision_detected then 1 else 0)
  let consensus_ratio : ℚ := (detecting_nodes : ℚ) / (total_nodes : ℚ)
  if consensus_ratio ≥ cfg.consensus_threshold then
    ({ s with alert_state := .ALERT, alert_start_time := now }, true)
  else
    ({ s with alert_state := .IDLE }, false)

/-- `SentinelCore::updateAlertState`: one tick of the alert state
machine.  Inputs: the current steady-clock instant, the detection
snapshot (`detection_data_.sensor_detected`, `vision_detected`) and the
mesh counts read by a possible consensus evaluation.  Returns the new
state, the list of `broadcastDetection` payloads sent during the tick
(in order), and whether the alert sink was triggered. -/
def updateAlertState (cfg : Config) (now : Int)
    (sensor_detected vision_detected : Bool)
    (mesh_active mesh_detecting : Nat) (s : CoreState) :
    CoreState × List Bool × Bool :=
  let local_detection := sensor_detected || vision_detected
  if local_detection then
    let (s1, out1) :=
      if s.alert_state = .IDLE then
        ({ s with alert_state := .PENDING, consensus_start_time := now },
         [true])
      else
        (s, ([] : List Bool))
    if s1.alert_state = .PENDING ∧
        now - s1.consensus_start_time ≥ cfg.consensus_timeout_sec then
      let (s2, triggered) :=
        evaluateConsensus cfg now mesh_active mesh_detecting
          sensor_detected vision_detected s1
      (s2, out1, triggered)
    else
      (s1, out1, false)
  else
    if s.alert_state = .ALERT then
      if now - s.alert_start_time ≥ cfg.alert_duration_sec then
        ({ s with alert_state := .IDLE }, [false], false)
      else
        (s, [], false)
    else if s.alert_state = .PENDING then
      ({ s with alert_state := .IDLE }, [false], false)
    else
      (s, [], false)

end Sentinel

namespace Sentinel

/-! ## Alert state machine (claims C1, C2, C4) -/

/-- Helper: a `PENDING` tick with local detection whose consensus window
has elapsed runs `evaluateConsensus` and sends no broadcast of its own. -/
theorem updateAlertState_pending_evaluates (cfg : Config) (now : Int)
    (sensor_detected vision_detected : Bool)
    (mesh_active mesh_detecting : Nat) (s : CoreState)
    (hpend : s.alert_state = .PENDING)
    (hloc : (sensor_detected || vision_detected) = true)
    (helapsed : now - s.consensus_start_time ≥ cfg.consensus_timeout_sec) :
    updateAlertState cfg now sensor_detected vision_detected
        mesh_active mesh_detecting s =
      ((evaluateConsensus cfg now mesh_active mesh_detecting
          sensor_detected vision_detected s).1, [],
       (evaluateConsensus cfg now mesh_active mesh_detecting
          sensor_detected vision_detected s).2) := by
  obtain ⟨a, cs, as⟩ := s
  simp only [CoreState.alert_state] at hpend
  subst hpend
  simp only [CoreState.consensus_start_time] at helapsed
  simp only [updateAlertState, hloc, reduceCtorEq, if_false, if_true,
    CoreState.alert_state, CoreState.consensus_start_time, true_and]
  rw [if_pos helapsed]

/-- C1: Every consensus evaluation computes the ratio
`(mesh_detecting + (local_detection ? 1 : 0)) / (mesh_active + 1)`;
when the ratio meets `consensus_threshold` the state becomes `ALERT`,
`alert_start_time` is set to `now` and the alert sink (`triggerAlert`)
is invoked, otherwise the state becomes `IDLE`.  The evaluation is
exactly what a `PENDING` tick runs once the consensus window has
elapsed.  With 3 active peers, 2 detecting peers and threshold 3/5:
self not detecting gives ratio 1/2 and `IDLE`; self detecting gives
ratio 3/4 and `ALERT`. -/
theorem evaluateConsensus_spec :
    (∀ (cfg : Config) (now : Int) (mesh_active mesh_detecting : Nat)
        (sensor_detected vision_detected : Bool) (s : CoreState),
      (((mesh_detecting : ℚ) +
            (if sensor_detected || vision_detected then 1 else 0)) /
            ((mesh_active : ℚ) + 1) ≥ cfg.consensus_threshold →
        (evaluateConsensus cfg now mesh_active mesh_detecting
            sensor_detected vision_detected s).1.alert_state = .ALERT ∧
        (evaluateConsensus cfg now mesh_active mesh_detecting
            sensor_detected vision_detected s).1.alert_start_time = now ∧
        (evaluateConsensus cfg now mesh_active mesh_detecting
            sensor_detected vision_detected s).2 = true) ∧
      (((mesh_detecting : ℚ) +
            (if sensor_detected || vision_detected then 1 else 0)) /
            ((mesh_active : ℚ) + 1) < cfg.consensus_threshold →
        (evaluateConsensus cfg now mesh_active mesh_detecting
            sensor_detected vision_detected s).1.alert_state = .IDLE ∧
        (evaluateConsensus cfg now mesh_active mesh_detecting
            sensor_detected vision_detected s).2 = false)) ∧
    (∀ (cfg : Config) (now : Int) (sensor_detected vision_detected : Bool)
        (mesh_active mesh_detecting : Nat) (s : CoreState),
      s.alert_state = .PENDING →
      (sensor_detected || vision_detected) = true →
      now - s.consensus_start_time ≥ cfg.consensus_timeout_sec →
      updateAlertState cfg now sensor_detected vision_detected
          mesh_active mesh_detecting s =
        ((evaluateConsensus cfg now mesh_active mesh_detecting
            sensor_detected vision_detected s).1, [],
         (evaluateConsensus cfg now mesh_active mesh_detecting
            sensor_detected vision_detected s).2)) ∧
    evaluateConsensus ⟨3/5, 5, 60⟩ 100 3 2 false false ⟨.PENDING, 0, 0⟩ =
      (⟨.IDLE, 0, 0⟩, false) ∧
    evaluateConsensus ⟨3/5, 5, 60⟩ 100 3 2 true false ⟨.PENDING, 0, 0⟩ =
      (⟨.ALERT, 0, 100⟩, true) := by
  refine ⟨?_, updateAlertState_pending_evaluates, ?_, ?_⟩
  · intro cfg now mesh_active mesh_detecting sensor_detected vision_detected s
    constructor
    · intro h
      simp only [evaluateConsensus]
      rw [if_pos (by push_cast; exact h)]
      exact ⟨rfl, rfl, rfl⟩
    · intro h
      simp only [evaluateConsensus]
      rw [if_neg (by push_cast; exact not_le.mpr h)]
      exact ⟨rfl, rfl⟩
  · simp only [evaluateConsensus]
    rw [if_neg (by norm_num)]
  · simp only [evaluateConsensus]
    rw [if_pos (by norm_num)]

/-- C1 witness: the theorem applied at the spec's self-detecting
example — ratio 3/4 ≥ 3/5 forces `ALERT`, `alert_start = now`, sink
triggered. -/
theorem evaluateConsensus_spec_witness :
    (evaluateConsensus ⟨3/5, 5, 60⟩ 100 3 2 true false
        ⟨.PENDING, 0, 0⟩).1.alert_state = .ALERT ∧
    (evaluateConsensus ⟨3/5, 5, 60⟩ 100 3 2 true false
        ⟨.PENDING, 0, 0⟩).1.alert_start_time = 100 ∧
    (evaluateConsensus ⟨3/5, 5, 60⟩ 100 3 2 true false
        ⟨.PENDING, 0, 0⟩).2 = true :=
  (evaluateConsensus_spec.1 ⟨3/5, 5, 60⟩ 100 3 2 true false
    ⟨.PENDING, 0, 0⟩).1 (by norm_num)

/-- C2 counterexample: in `ALERT` with `alert_start` 61 s in the past
and `alert_duration_sec = 60`, a tick with `local_detection = true`
(sensor still detecting) does NOT transition to `IDLE` and sends no
broadcast: the expiry check of `updateAlertState` sits in the
`local_detection == false` branch. -/
theorem updateAlertState_alert_expired_detecting_cex :
    (updateAlertState ⟨3/5, 5, 60⟩ 61 true false 0 0
        ⟨.ALERT, 0, 0⟩).1.alert_state ≠ AlertState.IDLE ∧
    (updateAlertState ⟨3/5, 5, 60⟩ 61 true false 0 0
        ⟨.ALERT, 0, 0⟩).2.1 = [] := by
  constructor
  · simp [updateAlertState]
  · simp [updateAlertState]

/-- C2 (amended): while in `ALERT`, a tick with `local_detection` false
and `now - alert_start >= alert_duration_sec` transitions to `IDLE` and
broadcasts `detected=false`; a tick with `local_detection` true leaves
the state unchanged and sends nothing, however long the alert has been
active — so the alert is not cleared while local detection persists. -/
theorem updateAlertState_alert_expiry :
    ∀ (cfg : Config) (now : Int) (sensor_detected vision_detected : Bool)
      (mesh_active mesh_detecting : Nat) (s : CoreState),
      s.alert_state = .ALERT →
      (((sensor_detected || vision_detected) = false →
          now - s.alert_start_time ≥ cfg.alert_duration_sec →
          updateAlertState cfg now sensor_detected vision_detected
              mesh_active mesh_detecting s =
            ({ s with alert_state := .IDLE }, [false], false)) ∧
       ((sensor_detected || vision_detected) = true →
          updateAlertState cfg now sensor_detected vision_detected
              mesh_active mesh_detecting s = (s, [], false))) := by
  intro cfg now sensor_detected vision_detected mesh_active mesh_detecting
    s halert
  obtain ⟨a, cs, as⟩ := s
  simp only [CoreState.alert_state] at halert
  subst halert
  constructor
  · intro hloc helapsed
    simp only [CoreState.alert_start_time] at helapsed
    simp only [updateAlertState, hloc, Bool.false_eq_true, if_false,
      reduceCtorEq, if_true, CoreState.alert_state, CoreState.alert_start_time]
    rw [if_pos helapsed]
  · intro hloc
    simp only [updateAlertState, hloc, reduceCtorEq, if_false, if_true,
      CoreState.alert_state, false_and]

/-- C2 witness: the amended theorem applied with `local_detection`
false, `alert_start = 0`, `now = 61`, `alert_duration_sec = 60`. -/
theorem updateAlertState_alert_expiry_witness :
    updateAlertState ⟨3/5, 5, 60⟩ 61 false false 0 0 ⟨.ALERT, 0, 0⟩ =
      (⟨.IDLE, 0, 0⟩, [false], false) :=
  (updateAlertState_alert_expiry ⟨3/5, 5, 60⟩ 61 false false 0 0
    ⟨.ALERT, 0, 0⟩ rfl).1 rfl (by norm_num)

/-- C4: the `PENDING → IDLE` transition taken when consensus fails
sends no broadcast — the tick's broadcast list is empty — whereas the
other two transitions into `IDLE` (from `PENDING` when local detection
clears, and from `ALERT` on expiry) both broadcast `detected=false`. -/
theorem pending_consensus_fail_no_broadcast :
    ∀ (cfg : Config) (now : Int) (sensor_detected vision_detected : Bool)
      (mesh_active mesh_detecting : Nat) (s : CoreState),
      (s.alert_state = .PENDING →
        (sensor_detected || vision_detected) = true →
        now - s.consensus_start_time ≥ cfg.consensus_timeout_sec →
        ((mesh_detecting : ℚ) +
            (if sensor_detected || vision_detected then 1 else 0)) /
            ((mesh_active : ℚ) + 1) < cfg.consensus_threshold →
        updateAlertState cfg now sensor_detected vision_detected
            mesh_active mesh_detecting s =
          ({ s with alert_state := .IDLE }, [], false)) ∧
      (s.alert_state = .PENDING →
        (sensor_detected || vision_detected) = false →
        updateAlertState cfg now sensor_detected vision_detected
            mesh_active mesh_detecting s =
          ({ s with alert_state := .IDLE }, [false], false)) ∧
      (s.alert_state = .ALERT →
        (sensor_detected || vision_detected) = false →
        now - s.alert_start_time ≥ cfg.alert_duration_sec →
        updateAlertState cfg now sensor_detected vision_detected
            mesh_active mesh_detecting s =
          ({ s with alert_state := .IDLE }, [false], false)) := by
  intro cfg now sensor_detected vision_detected mesh_active mesh_detecting s
  refine ⟨?_, ?_, ?_⟩
  · intro hpend hloc helapsed hratio
    rw [updateAlertState_pending_evaluates cfg now sensor_detected
      vision_detected mesh_active mesh_detecting s hpend hloc helapsed]
    simp only [evaluateConsensus]
    rw [if_neg (by push_cast; exact not_le.mpr hratio)]
  · intro hpend hloc
    obtain ⟨a, cs, as⟩ := s
    simp only [CoreState.alert_state] at hpend
    subst hpend
    simp only [updateAlertState, hloc, Bool.false_eq_true, if_false,
      reduceCtorEq, if_true]
  · intro halert hloc helapsed
    obtain ⟨a, cs, as⟩ := s
    simp only [CoreState.alert_state] at halert
    subst halert
    simp only [CoreState.alert_start_time] at helapsed
    simp only [updateAlertState, hloc, Bool.false_eq_true, if_false,
      reduceCtorEq, if_true, CoreState.alert_state, CoreState.alert_start_time]
    rw [if_pos helapsed]

/-- C4 witness: consensus failure (ratio 1/2 < 3/5) from `PENDING` at a
concrete input yields `IDLE` with an empty broadcast list, and the two
broadcasting `IDLE` transitions at concrete inputs each emit `[false]`. -/
theorem pending_consensus_fail_no_broadcast_witness :
    updateAlertState ⟨3/5, 5, 60⟩ 10 true false 3 1 ⟨.PENDING, 0, 0⟩ =
      (⟨.IDLE, 0, 0⟩, [], false) ∧
    updateAlertState ⟨3/5, 5, 60⟩ 10 false false 3 1 ⟨.PENDING, 0, 0⟩ =
      (⟨.IDLE, 0, 0⟩, [false], false) ∧
    updateAlertState ⟨3/5, 5, 60⟩ 61 false false 3 1 ⟨.ALERT, 0, 0⟩ =
      (⟨.IDLE, 0, 0⟩, [false], false) :=
  ⟨(pending_consensus_fail_no_broadcast ⟨3/5, 5, 60⟩ 10 true false 3 1
      ⟨.PENDING, 0, 0⟩).1 rfl rfl (by norm_num) (by norm_num),
   (pending_consensus_fail_no_broadcast ⟨3/5, 5, 60⟩ 10 false false 3 1
      ⟨.PENDING, 0, 0⟩).2.1 rfl rfl,
   (pending_consensus_fail_no_broadcast ⟨3/5, 5, 60⟩ 61 false false 3 1
      ⟨.ALERT, 0, 0⟩).2.2 rfl rfl (by norm_num)⟩

end Sentinel

namespace Sentinel

/-! ## Message codec (claims C3, C5, C6, C7) -/

/-- getD of an append at the length of the left part returns the first
element of the right part. -/
theorem getD_append_length (l : List Nat) (x : Nat) (ys : List Nat) (d : Nat) :
    (l ++ x :: ys).getD l.length d = x := by
  induction l with
  | nil => rfl
  | cons a l ih => simpa using ih

/-- Shifting the accumulator of the XOR fold shifts its result. -/
theorem foldl_xor_init (xs : List Nat) : ∀ (c d : Nat),
    List.foldl Nat.xor (c ^^^ d) xs = (List.foldl Nat.xor c xs) ^^^ d := by
  induction xs with
  | nil => intro c d; rfl
  | cons y ys ih =>
    intro c d
    simp only [List.foldl_cons]
    show List.foldl Nat.xor ((c ^^^ d) ^^^ y) ys =
      List.foldl Nat.xor (c ^^^ y) ys ^^^ d
    rw [Nat.xor_assoc, Nat.xor_comm d y, ← Nat.xor_assoc, ih]

/-- XORing one element of a list into the fold XORs the fold's result. -/
theorem foldl_xor_set (L : List Nat) : ∀ (i : Nat), i < L.length →
    ∀ (d a : Nat),
    (L.set i (L.getD i 0 ^^^ d)).foldl Nat.xor a = (L.foldl Nat.xor a) ^^^ d := by
  induction L with
  | nil => intro i hi; simp at hi
  | cons x xs ih =>
    intro i hi d a
    match i with
    | 0 =>
      simp only [List.set_cons_zero, List.getD_cons_zero, List.foldl_cons]
      show List.foldl Nat.xor (a ^^^ (x ^^^ d)) xs =
        List.foldl Nat.xor (a ^^^ x) xs ^^^ d
      rw [← Nat.xor_assoc, foldl_xor_init]
    | i + 1 =>
      simp only [List.set_cons_succ, List.getD_cons_succ, List.foldl_cons]
      exact ih i (by simpa using hi) d (Nat.xor a x)

/-- XOR with a nonzero value changes a number. -/
theorem xor_ne_self (x d : Nat) (hd : d ≠ 0) : x ^^^ d ≠ x := by
  intro h
  have h2 : x ^^^ (x ^^^ d) = x ^^^ x := congrArg (fun y => x ^^^ y) h
  rw [← Nat.xor_assoc, Nat.xor_self, Nat.zero_xor] at h2
  exact hd h2

/-- `take` commutes with `set` below the cut. -/
theorem take_set_of_lt (l : List Nat) (i v n : Nat) (h : i < n)
    (hl : i < l.length) : (l.set i v).take n = (l.take n).set i v := by
  apply List.ext_getElem?
  intro j
  by_cases hij : i = j
  · subst hij
    rw [List.getElem?_take, if_pos h, List.getElem?_set_self hl,
      List.getElem?_set_self (by rw [List.length_take]; omega)]
  · rw [List.getElem?_set_ne hij, List.getElem?_take, List.getElem?_take,
      List.getElem?_set_ne hij]

/-- `take` ignores a `set` at or beyond the cut. -/
theorem take_set_of_ge (l : List Nat) (i v n : Nat) (h : n ≤ i) :
    (l.set i v).take n = l.take n := by
  apply List.ext_getElem?
  intro j
  rw [List.getElem?_take, List.getElem?_take]
  split
  · next hj => rw [List.getElem?_set_ne (by omega)]
  · rfl

/-- Characterization of `deserializeMessage` on any buffer that passes
the two length checks: fields are read from the header, the payload is
the declared slice, and the only possible error is a checksum
mismatch. -/
theorem deserializeMessage_of_le (dflt : MeshMessage) (buf : List Nat)
    (len : Nat) (h5 : ¬ len < 5) (hpl : buf.getD 3 0 ≤ 64) :
    deserializeMessage dflt buf len =
      ({ type := buf.getD 0 0, source_id := buf.getD 1 0,
         destination_id := buf.getD 2 0,
         payload := (buf.drop 4).take (buf.getD 3 0) },
       if buf.getD (4 + buf.getD 3 0) 0 ≠
           xorChecksum (buf.take (4 + buf.getD 3 0))
       then some .checksumMismatch else none) := by
  simp only [deserializeMessage]
  rw [if_neg h5, if_neg (by simp only [MAX_PAYLOAD_SIZE]; omega)]

/-- C3: round-trip — for every message whose payload is at most 64
bytes, decoding the encoded frame (with the frame's length as the
received length) reproduces the message exactly — type, source,
destination, payload length and payload bytes — and reports no error,
whatever the decoder's initial (default-constructed) message was. -/
theorem serialize_deserialize_roundtrip (dflt m : MeshMessage)
    (hlen : m.payload.length ≤ MAX_PAYLOAD_SIZE) :
    deserializeMessage dflt (serializeMessage m) (serializeMessage m).length
      = (m, none) := by
  obtain ⟨t, s, d, pl⟩ := m
  simp only [MeshMessage.payload] at hlen
  simp only [serializeMessage, deserializeMessage, MeshMessage.type,
    MeshMessage.source_id, MeshMessage.destination_id, MeshMessage.payload,
    List.cons_append, List.nil_append]
  rw [if_neg (by simp)]
  have h0 : ∀ X : List Nat, (t :: s :: d :: pl.length :: X).getD 0 0 = t :=
    fun X => rfl
  have h1 : ∀ X : List Nat, (t :: s :: d :: pl.length :: X).getD 1 0 = s :=
    fun X => rfl
  have h2 : ∀ X : List Nat, (t :: s :: d :: pl.length :: X).getD 2 0 = d :=
    fun X => rfl
  have h3 : ∀ X : List Nat,
      (t :: s :: d :: pl.length :: X).getD 3 0 = pl.length := fun X => rfl
  have hdrop : ∀ X : List Nat,
      List.drop 4 (t :: s :: d :: pl.length :: X) = X := fun X => rfl
  simp only [h0, h1, h2, h3, hdrop]
  rw [if_neg (by omega)]
  rw [List.take_left]
  have hrecv : (t :: s :: d :: pl.length ::
      (pl ++ [xorChecksum (t :: s :: d :: pl.length :: pl)])).getD
      (4 + pl.length) 0 = xorChecksum (t :: s :: d :: pl.length :: pl) := by
    have h : (4 + pl.length) = (t :: s :: d :: pl.length :: pl).length := by
      simp only [List.length_cons]; omega
    rw [h]
    exact getD_append_length (t :: s :: d :: pl.length :: pl)
      (xorChecksum (t :: s :: d :: pl.length :: pl)) [] 0
  have htake : List.take (4 + pl.length) (t :: s :: d :: pl.length ::
      (pl ++ [xorChecksum (t :: s :: d :: pl.length :: pl)]))
      = t :: s :: d :: pl.length :: pl := by
    have h : (4 + pl.length) = (t :: s :: d :: pl.length :: pl).length := by
      simp only [List.length_cons]; omega
    rw [h]
    exact List.take_left (t :: s :: d :: pl.length :: pl)
      [xorChecksum (t :: s :: d :: pl.length :: pl)]
  simp only [hrecv, htake, ne_eq, not_true_eq_false, if_false]

/-- C3 witness: round-trip at a concrete message. -/
theorem serialize_deserialize_roundtrip_witness :
    deserializeMessage ⟨0, 0, 0, []⟩ (serializeMessage ⟨2, 5, 255, [1, 2, 3]⟩)
        (serializeMessage ⟨2, 5, 255, [1, 2, 3]⟩).length
      = (⟨2, 5, 255, [1, 2, 3]⟩, none) :=
  serialize_deserialize_roundtrip ⟨0, 0, 0, []⟩ ⟨2, 5, 255, [1, 2, 3]⟩
    (by decide)

end Sentinel

namespace Sentinel

/-- getD four places into a cons-prefixed list. -/
theorem getD_cons_add_four (a b c e : Nat) (l : List Nat) (j d : Nat) :
    (a :: b :: c :: e :: l).getD (4 + j) d = l.getD j d := by
  rw [Nat.add_comm]; rfl

/-- getElem? four places into a cons-prefixed list. -/
theorem getElem?_cons_add_four (a b c e : Nat) (l : List Nat) (j : Nat) :
    (a :: b :: c :: e :: l)[4 + j]? = l[j]? := by
  rw [Nat.add_comm]
  show (a :: b :: c :: e :: l)[(j + 3) + 1]? = l[j]?
  rw [List.getElem?_cons_succ]
  show (b :: c :: e :: l)[(j + 2) + 1]? = l[j]?
  rw [List.getElem?_cons_succ]
  show (c :: e :: l)[(j + 1) + 1]? = l[j]?
  rw [List.getElem?_cons_succ]
  show (e :: l)[j + 1]? = l[j]?
  rw [List.getElem?_cons_succ]

/-- getD is unchanged by a set at a different index. -/
theorem getD_set_ne (l : List Nat) (i j v d : Nat) (h : i ≠ j) :
    (l.set i v).getD j d = l.getD j d := by
  rw [List.getD_eq_getElem?_getD, List.getElem?_set_ne h,
    ← List.getD_eq_getElem?_getD]

/-- C7 (amended): flipping any single bit of a byte other than the
`payload_len` byte (offset 3) of a valid encoded frame makes decode
report `ChecksumMismatch` while still returning a decoded message whose
fields other than the flipped one carry their transmitted values: the
header fields at unflipped offsets, the payload length, and every
payload byte other than a flipped one are preserved.  (A flip inside
the `payload_len` byte shifts the payload/checksum boundary and can
make the corrupted frame decode with no error at all — see the
counterexample.) -/
theorem bitflip_checksum_mismatch (dflt m : MeshMessage)
    (hlen : m.payload.length ≤ MAX_PAYLOAD_SIZE) (i b : Nat)
    (hi : i < (serializeMessage m).length) (hne3 : i ≠ 3) (_hb : b < 8) :
    (deserializeMessage dflt
        ((serializeMessage m).set i ((serializeMessage m).getD i 0 ^^^ 2 ^ b))
        ((serializeMessage m).set i
          ((serializeMessage m).getD i 0 ^^^ 2 ^ b)).length).2 =
      some DecodeError.checksumMismatch ∧
    (i ≠ 0 → (deserializeMessage dflt
        ((serializeMessage m).set i ((serializeMessage m).getD i 0 ^^^ 2 ^ b))
        ((serializeMessage m).set i
          ((serializeMessage m).getD i 0 ^^^ 2 ^ b)).length).1.type = m.type) ∧
    (i ≠ 1 → (deserializeMessage dflt
        ((serializeMessage m).set i ((serializeMessage m).getD i 0 ^^^ 2 ^ b))
        ((serializeMessage m).set i
          ((serializeMessage m).getD i 0 ^^^ 2 ^ b)).length).1.source_id =
      m.source_id) ∧
    (i ≠ 2 → (deserializeMessage dflt
        ((serializeMessage m).set i ((serializeMessage m).getD i 0 ^^^ 2 ^ b))
        ((serializeMessage m).set i
          ((serializeMessage m).getD i 0 ^^^ 2 ^ b)).length).1.destination_id =
      m.destination_id) ∧
    (deserializeMessage dflt
        ((serializeMessage m).set i ((serializeMessage m).getD i 0 ^^^ 2 ^ b))
        ((serializeMessage m).set i
          ((serializeMessage m).getD i 0 ^^^ 2 ^ b)).length).1.payload.length =
      m.payload.length ∧
    (∀ j, j < m.payload.length → 4 + j ≠ i →
      (deserializeMessage dflt
        ((serializeMessage m).set i ((serializeMessage m).getD i 0 ^^^ 2 ^ b))
        ((serializeMessage m).set i
          ((serializeMessage m).getD i 0 ^^^ 2 ^ b)).length).1.payload.getD j 0 =
      m.payload.getD j 0) := by
  obtain ⟨t, s, d, pl⟩ := m
  simp only [MeshMessage.payload, MeshMessage.type, MeshMessage.source_id,
    MeshMessage.destination_id] at hlen hi ⊢
  simp only [MAX_PAYLOAD_SIZE] at hlen
  have hLdef : serializeMessage ⟨t, s, d, pl⟩ =
      t :: s :: d :: pl.length ::
        (pl ++ [xorChecksum (t :: s :: d :: pl.length :: pl)]) := by
    simp [serializeMessage]
  rw [hLdef] at hi ⊢
  set ck : Nat := xorChecksum (t :: s :: d :: pl.length :: pl) with hckdef
  set L : List Nat := t :: s :: d :: pl.length :: (pl ++ [ck]) with hLdef2
  set v : Nat := L.getD i 0 ^^^ 2 ^ b with hvdef
  have hLlen : L.length = pl.length + 5 := by
    rw [hLdef2]
    simp only [List.length_cons, List.length_append, List.length_nil]
  have hiL : i < pl.length + 5 := hLlen ▸ hi
  have h2b : (2 : Nat) ^ b ≠ 0 := (pow_pos (by norm_num) b).ne'
  have hLg : L.getD (4 + pl.length) 0 = ck := by
    rw [hLdef2, getD_cons_add_four]
    exact getD_append_length pl ck [] 0
  have htk : L.take (4 + pl.length) = t :: s :: d :: pl.length :: pl := by
    rw [show (4 + pl.length) = (t :: s :: d :: pl.length :: pl).length by
      simp only [List.length_cons]; omega]
    exact List.take_left (t :: s :: d :: pl.length :: pl) [ck]
  have hg3set : (L.set i v).getD 3 0 = pl.length := by
    rw [getD_set_ne L i 3 v 0 hne3, hLdef2]
    rfl
  have hif : (L.set i v).getD (4 + pl.length) 0 ≠
      xorChecksum ((L.set i v).take (4 + pl.length)) := by
    by_cases hcase : i < 4 + pl.length
    · have hr : (L.set i v).getD (4 + pl.length) 0 = ck := by
        rw [List.getD_eq_getElem?_getD,
          List.getElem?_set_ne (by omega : i ≠ 4 + pl.length),
          ← List.getD_eq_getElem?_getD, hLg]
      have hbl : i < (t :: s :: d :: pl.length :: pl).length := by
        simp only [List.length_cons]; omega
      have hgv : L.getD i 0 = (t :: s :: d :: pl.length :: pl).getD i 0 := by
        rw [List.getD_eq_getElem?_getD, List.getD_eq_getElem?_getD]
        congr 1
        rw [hLdef2]
        exact List.getElem?_append_left hbl
      have hc : xorChecksum ((L.set i v).take (4 + pl.length)) = ck ^^^ 2 ^ b := by
        rw [take_set_of_lt L i v (4 + pl.length) hcase (by rw [hLlen]; exact hiL)]
        rw [htk, hvdef, hgv]
        exact foldl_xor_set (t :: s :: d :: pl.length :: pl) i hbl (2 ^ b) 0
      rw [hr, hc]
      exact Ne.symm (xor_ne_self ck (2 ^ b) h2b)
    · have hieq : i = 4 + pl.length := by omega
      have hr : (L.set i v).getD (4 + pl.length) 0 = v := by
        rw [List.getD_eq_getElem?_getD, hieq,
          List.getElem?_set_self (by rw [hLlen]; omega)]
        rfl
      have hc : xorChecksum ((L.set i v).take (4 + pl.length)) = ck := by
        rw [take_set_of_ge L i v (4 + pl.length) (by omega), htk]
      rw [hr, hc, hvdef, hieq, hLg]
      exact xor_ne_self ck (2 ^ b) h2b
  rw [deserializeMessage_of_le dflt (L.set i v) ((L.set i v).length)
    (by rw [List.length_set, hLlen]; omega)
    (by rw [hg3set]; omega)]
  dsimp only
  rw [hg3set]
  refine ⟨?_, ?_, ?_, ?_, ?_, ?_⟩
  · rw [if_pos hif]
  · intro h0
    rw [getD_set_ne L i 0 v 0 h0, hLdef2]
    rfl
  · intro h1
    rw [getD_set_ne L i 1 v 0 h1, hLdef2]
    rfl
  · intro h2
    rw [getD_set_ne L i 2 v 0 h2, hLdef2]
    rfl
  · rw [List.length_take, List.length_drop, List.length_set, hLlen]
    omega
  · intro j hj hij
    rw [List.getD_eq_getElem?_getD, List.getElem?_take, if_pos hj,
      List.getElem?_drop,
      List.getElem?_set_ne (show i ≠ 4 + j from fun h => hij (by omega)),
      hLdef2, getElem?_cons_add_four, List.getElem?_append_left hj,
      ← List.getD_eq_getElem?_getD]

end Sentinel

namespace Sentinel

/-- Looking up the key just written into the table. -/
theorem tableFind_tableSet_self (t : NodeTable) (k : Nat) (v : NodeInfo) :
    tableFind (tableSet t k v) k = some v := by
  induction t with
  | nil => simp [tableSet, tableFind]
  | cons p rest ih =>
    obtain ⟨k', v'⟩ := p
    by_cases h : k' = k
    · simp [tableSet, tableFind, h]
    · simp [tableSet, tableFind, h, ih]

/-- C5: a received frame of 5 bytes `[0x02, 0x05, 0xFF, 0x0A, ...]`
whose declared `payload_len` (10) exceeds the bytes remaining after the
4-byte header is NOT rejected with `PayloadTooLarge` — the only check
`deserializeMessage` performs is `payload_len > 64`, so it reads 10
bytes beyond the received data from the caller's buffer (stale bytes,
here 9s), reports at most a checksum mismatch, and `receiveLoop` still
hands the message to `processMessage`, which records its source in the
node table. -/
theorem deserialize_truncated_frame :
    ∀ (dflt : MeshMessage) (t : NodeTable) (now : Int),
      (deserializeMessage dflt
          ([2, 5, 255, 10] ++ List.replicate 10 9 ++ [0]) 5).2 =
        some DecodeError.checksumMismatch ∧
      (deserializeMessage dflt
          ([2, 5, 255, 10] ++ List.replicate 10 9 ++ [0]) 5).1.payload =
        List.replicate 10 9 ∧
      tableFind (receiveStep 1 now dflt t
          ([2, 5, 255, 10] ++ List.replicate 10 9 ++ [0]) 5).1 5 ≠ none := by
  intro dflt t now
  refine ⟨rfl, rfl, ?_⟩
  show tableFind (processMessage 1 now t
    (deserializeMessage dflt ([2, 5, 255, 10] ++ List.replicate 10 9 ++ [0]) 5).1).1 5 ≠ none
  have hdec : (deserializeMessage dflt
      ([2, 5, 255, 10] ++ List.replicate 10 9 ++ [0]) 5).1 =
      ⟨2, 5, 255, List.replicate 10 9⟩ := rfl
  rw [hdec]
  simp only [processMessage]
  rw [if_neg (by decide), if_pos (by decide), tableFind_tableSet_self]
  simp

/-- C6: a received buffer shorter than 5 bytes makes decode flag the
`TooShort` condition, but the frame is NOT dropped: `receiveLoop`
passes the returned default-constructed message (whose fields are
whatever indeterminate values `dflt` holds) to `processMessage`, and
whenever its junk `source_id` differs from the local node id a spurious
node-table record is created. -/
theorem deserialize_short_frame_processed :
    ∀ (node_id : Nat) (now : Int) (dflt : MeshMessage) (t : NodeTable),
      (deserializeMessage dflt [1, 2, 255] 3).2 = some DecodeError.tooShort ∧
      receiveStep node_id now dflt t [1, 2, 255] 3 =
        processMessage node_id now t dflt ∧
      (dflt.source_id ≠ node_id →
        tableFind (receiveStep node_id now dflt t [1, 2, 255] 3).1
          dflt.source_id ≠ none) := by
  intro node_id now dflt t
  refine ⟨rfl, rfl, ?_⟩
  intro hsrc
  show tableFind (processMessage node_id now t dflt).1 dflt.source_id ≠ none
  simp only [processMessage]
  rw [if_neg hsrc]
  by_cases htyp : dflt.type = MSG_TYPE_DETECTION
  · rw [if_pos htyp, tableFind_tableSet_self]
    simp
  · rw [if_neg htyp, tableFind_tableSet_self]
    simp

end Sentinel

namespace Sentinel

/-- C7 counterexample: the frame `[1, 2, 3, 1, 0, 1]` (a valid encoding
of type 1, source 2, destination 3, payload `[0]`) with bit 0 of its
`payload_len` byte (offset 3) flipped decodes with NO error reported:
the declared length drops to 0, the checksum is recomputed over the
header only, and it happens to match the byte now read as the checksum.
The claim that every single-bit flip causes `ChecksumMismatch` is
therefore false. -/
theorem bitflip_payload_len_cex :
    (deserializeMessage ⟨0, 0, 0, []⟩
        ((serializeMessage ⟨1, 2, 3, [0]⟩).set 3
          ((serializeMessage ⟨1, 2, 3, [0]⟩).getD 3 0 ^^^ 2 ^ 0))
        ((serializeMessage ⟨1, 2, 3, [0]⟩).set 3
          ((serializeMessage ⟨1, 2, 3, [0]⟩).getD 3 0 ^^^ 2 ^ 0)).length).2 =
      none := by
  decide

/-- C7 witness: the amended theorem applied to a flip of bit 0 of the
checksum byte (offset 5) of the same frame. -/
theorem bitflip_checksum_mismatch_witness :
    (deserializeMessage ⟨0, 0, 0, []⟩
        ((serializeMessage ⟨1, 2, 3, [0]⟩).set 5
          ((serializeMessage ⟨1, 2, 3, [0]⟩).getD 5 0 ^^^ 2 ^ 0))
        ((serializeMessage ⟨1, 2, 3, [0]⟩).set 5
          ((serializeMessage ⟨1, 2, 3, [0]⟩).getD 5 0 ^^^ 2 ^ 0)).length).2 =
      some DecodeError.checksumMismatch ∧
    (deserializeMessage ⟨0, 0, 0, []⟩
        ((serializeMessage ⟨1, 2, 3, [0]⟩).set 5
          ((serializeMessage ⟨1, 2, 3, [0]⟩).getD 5 0 ^^^ 2 ^ 0))
        ((serializeMessage ⟨1, 2, 3, [0]⟩).set 5
          ((serializeMessage ⟨1, 2, 3, [0]⟩).getD 5 0 ^^^ 2 ^ 0)).length).1.type = 1 ∧
    (deserializeMessage ⟨0, 0, 0, []⟩
        ((serializeMessage ⟨1, 2, 3, [0]⟩).set 5
          ((serializeMessage ⟨1, 2, 3, [0]⟩).getD 5 0 ^^^ 2 ^ 0))
        ((serializeMessage ⟨1, 2, 3, [0]⟩).set 5
          ((serializeMessage ⟨1, 2, 3, [0]⟩).getD 5 0 ^^^ 2 ^ 0)).length).1.source_id = 2 ∧
    (deserializeMessage ⟨0, 0, 0, []⟩
        ((serializeMessage ⟨1, 2, 3, [0]⟩).set 5
          ((serializeMessage ⟨1, 2, 3, [0]⟩).getD 5 0 ^^^ 2 ^ 0))
        ((serializeMessage ⟨1, 2, 3, [0]⟩).set 5
          ((serializeMessage ⟨1, 2, 3, [0]⟩).getD 5 0 ^^^ 2 ^ 0)).length).1.destination_id = 3 ∧
    (deserializeMessage ⟨0, 0, 0, []⟩
        ((serializeMessage ⟨1, 2, 3, [0]⟩).set 5
          ((serializeMessage ⟨1, 2, 3, [0]⟩).getD 5 0 ^^^ 2 ^ 0))
        ((serializeMessage ⟨1, 2, 3, [0]⟩).set 5
          ((serializeMessage ⟨1, 2, 3, [0]⟩).getD 5 0 ^^^ 2 ^ 0)).length).1.payload.length = 1 ∧
    (deserializeMessage ⟨0, 0, 0, []⟩
        ((serializeMessage ⟨1, 2, 3, [0]⟩).set 5
          ((serializeMessage ⟨1, 2, 3, [0]⟩).getD 5 0 ^^^ 2 ^ 0))
        ((serializeMessage ⟨1, 2, 3, [0]⟩).set 5
          ((serializeMessage ⟨1, 2, 3, [0]⟩).getD 5 0 ^^^ 2 ^ 0)).length).1.payload.getD 0 0 = 0 := by
  have h := bitflip_checksum_mismatch ⟨0, 0, 0, []⟩ ⟨1, 2, 3, [0]⟩ (by decide)
    5 0 (by decide) (by decide) (by decide)
  exact ⟨h.1, h.2.1 (by decide), h.2.2.1 (by decide), h.2.2.2.1 (by decide),
    h.2.2.2.2.1, h.2.2.2.2.2 0 (by decide) (by decide)⟩

end Sentinel

namespace Sentinel

/-! ## Node table (claims C8, C9, C10) -/

/-- A key of the table after a write is the written key or an old key. -/
theorem tableKeys_tableSet (t : NodeTable) (k : Nat) (v : NodeInfo) (a : Nat)
    (ha : a ∈ tableKeys (tableSet t k v)) : a = k ∨ a ∈ tableKeys t := by
  induction t with
  | nil => simpa [tableSet, tableKeys] using ha
  | cons p rest ih =>
    obtain ⟨k', v'⟩ := p
    by_cases h : k' = k
    · simp only [tableSet, h, if_true, tableKeys, List.map_cons, List.mem_cons] at ha ⊢
      tauto
    · simp only [tableSet, h, if_false, tableKeys, List.map_cons, List.mem_cons] at ha ⊢
      rcases ha with h1 | h2
      · tauto
      · rcases ih h2 with h3 | h4 <;> tauto

/-- A key of the table after `processMessage` is the message's source
(necessarily a non-self source) or an old key. -/
theorem tableKeys_processMessage (node_id : Nat) (now : Int) (t : NodeTable)
    (msg : MeshMessage) (a : Nat)
    (ha : a ∈ tableKeys (processMessage node_id now t msg).1) :
    (a = msg.source_id ∧ msg.source_id ≠ node_id) ∨ a ∈ tableKeys t := by
  by_cases hsrc : msg.source_id = node_id
  · right
    simpa [processMessage, hsrc] using ha
  · simp only [processMessage, hsrc, if_false] at ha
    by_cases htyp : msg.type = MSG_TYPE_DETECTION
    · rw [if_pos htyp] at ha
      rcases tableKeys_tableSet _ _ _ _ ha with h | h
      · exact Or.inl ⟨h, hsrc⟩
      · exact Or.inr h
    · rw [if_neg htyp] at ha
      rcases tableKeys_tableSet _ _ _ _ ha with h | h
      · exact Or.inl ⟨h, hsrc⟩
      · exact Or.inr h

/-- Node tables reachable from the empty `active_nodes_` map by the
operations that mutate it: `processMessage` (receive path) and
`cleanupStaleNodes` (heartbeat path). -/
inductive Reachable (node_id : Nat) : NodeTable → Prop where
  | empty : Reachable node_id []
  | recv (now : Int) (msg : MeshMessage) {t : NodeTable} :
      Reachable node_id t →
      Reachable node_id (processMessage node_id now t msg).1
  | prune (node_timeout_sec now : Int) {t : NodeTable} :
      Reachable node_id t →
      Reachable node_id (cleanupStaleNodes node_timeout_sec now t)

/-- C9: a message whose source equals the local node id is discarded
by `processMessage` before any table mutation and before any callback
invocation (the table is returned unchanged and the callback-event list
is empty); consequently, in every reachable node table the local node's
own id never appears as a key. -/
theorem self_messages_dropped :
    (∀ (node_id : Nat) (now : Int) (t : NodeTable) (msg : MeshMessage),
      msg.source_id = node_id →
      processMessage node_id now t msg = (t, [])) ∧
    (∀ (node_id : Nat) (t : NodeTable), Reachable node_id t →
      node_id ∉ tableKeys t) := by
  constructor
  · intro node_id now t msg h
    simp [processMessage, h]
  · intro node_id t hreach
    induction hreach with
    | empty => simp [tableKeys]
    | recv now msg hr ih =>
      intro hmem
      rcases tableKeys_processMessage _ _ _ _ _ hmem with ⟨h1, h2⟩ | h3
      · exact h2 h1.symm
      · exact ih h3
    | prune timeout now hr ih =>
      rename_i t'
      intro hmem
      apply ih
      have hsub : (cleanupStaleNodes timeout now t').Sublist t' :=
        List.filter_sublist t'
      exact (hsub.map Prod.fst).subset hmem

/-- C9 witness: a self-sourced message at node 1 leaves the empty
table untouched, and node 1 is absent from a table reached by one
receive step. -/
theorem self_messages_dropped_witness :
    processMessage 1 0 [] ⟨1, 1, 255, []⟩ = ([], []) ∧
    1 ∉ tableKeys (processMessage 1 0 [] ⟨2, 7, 255, [1]⟩).1 :=
  ⟨self_messages_dropped.1 1 0 [] ⟨1, 1, 255, []⟩ rfl,
   self_messages_dropped.2 1 _ (Reachable.recv 0 ⟨2, 7, 255, [1]⟩ Reachable.empty)⟩

/-- C10: in every node table the detecting-node count is at most the
active-node count (each detecting record is an entry of the same map);
the inequality holds in particular after any `processMessage` or
`cleanupStaleNodes` step, so the consensus numerator computed from one
snapshot never exceeds its denominator:
`detecting + (local ? 1 : 0) <= active + 1`. -/
theorem detecting_le_active :
    (∀ t : NodeTable, getDetectingNodeCount t ≤ getActiveNodeCount t) ∧
    (∀ (node_id : Nat) (now : Int) (t : NodeTable) (msg : MeshMessage),
      getDetectingNodeCount (processMessage node_id now t msg).1 ≤
        getActiveNodeCount (processMessage node_id now t msg).1) ∧
    (∀ (node_timeout_sec now : Int) (t : NodeTable),
      getDetectingNodeCount (cleanupStaleNodes node_timeout_sec now t) ≤
        getActiveNodeCount (cleanupStaleNodes node_timeout_sec now t)) ∧
    (∀ (t : NodeTable) (b : Bool),
      getDetectingNodeCount t + (if b then 1 else 0) ≤
        getActiveNodeCount t + 1) := by
  refine ⟨?_, ?_, ?_, ?_⟩
  · intro t
    exact List.countP_le_length _
  · intro node_id now t msg
    exact List.countP_le_length _
  · intro timeout now t
    exact List.countP_le_length _
  · intro t b
    have h := List.countP_le_length (fun p => p.2.detecting) (l := t)
    have hb : (if b then 1 else 0) ≤ 1 := by cases b <;> simp
    exact Nat.add_le_add h hb

end Sentinel

namespace Sentinel

/-- C8: processing a `Heartbeat`, `Ack` or unrecognized-type message
from a non-self source upserts the sender's record with
`last_seen = now` and a `detecting` flag equal to the record's previous
value when the record existed, and `false` (the value-initialized
default) when the message created the record; liveness is refreshed but
`detecting` is never modified, and no detection callback fires. -/
theorem processMessage_liveness_only (node_id : Nat) (now : Int)
    (t : NodeTable) (msg : MeshMessage)
    (hsrc : msg.source_id ≠ node_id)
    (htyp : msg.type ≠ MSG_TYPE_DETECTION) :
    tableFind (processMessage node_id now t msg).1 msg.source_id =
      some { node_id := msg.source_id,
             detecting :=
               ((tableFind t msg.source_id).getD defaultNodeInfo).detecting,
             last_seen := now,
             rssi := ((tableFind t msg.source_id).getD defaultNodeInfo).rssi } ∧
    (∀ r0, tableFind t msg.source_id = some r0 →
      (tableFind (processMessage node_id now t msg).1 msg.source_id).map
        NodeInfo.detecting = some r0.detecting) ∧
    (tableFind t msg.source_id = none →
      (tableFind (processMessage node_id now t msg).1 msg.source_id).map
        NodeInfo.detecting = some false) ∧
    (processMessage node_id now t msg).2 = [] := by
  have hstep : processMessage node_id now t msg =
      (tableSet t msg.source_id
        { node_id := msg.source_id,
          detecting :=
            ((tableFind t msg.source_id).getD defaultNodeInfo).detecting,
          last_seen := now,
          rssi := ((tableFind t msg.source_id).getD defaultNodeInfo).rssi },
       []) := by
    simp only [processMessage]
    rw [if_neg hsrc, if_neg htyp]
  rw [hstep]
  have hfind := tableFind_tableSet_self t msg.source_id
    { node_id := msg.source_id,
      detecting := ((tableFind t msg.source_id).getD defaultNodeInfo).detecting,
      last_seen := now,
      rssi := ((tableFind t msg.source_id).getD defaultNodeInfo).rssi }
  refine ⟨hfind, ?_, ?_, rfl⟩
  · intro r0 hr0
    rw [hfind, hr0]
    simp [Option.getD]
  · intro hnone
    rw [hfind, hnone]
    simp [Option.getD, defaultNodeInfo]

/-- C8 witness: a Heartbeat (type 1) refreshing an existing
`detecting = true` record keeps it true; an Ack (type 3) creating a
record gets `detecting = false`. -/
theorem processMessage_liveness_only_witness :
    tableFind (processMessage 1 5 [(7, ⟨7, true, 0, 0⟩)] ⟨1, 7, 255, []⟩).1 7 =
      some ⟨7, true, 5, 0⟩ ∧
    tableFind (processMessage 1 5 [] ⟨3, 7, 255, []⟩).1 7 =
      some ⟨7, false, 5, 0⟩ :=
  ⟨(processMessage_liveness_only 1 5 [(7, ⟨7, true, 0, 0⟩)] ⟨1, 7, 255, []⟩
      (by decide) (by decide)).1,
   (processMessage_liveness_only 1 5 [] ⟨3, 7, 255, []⟩
      (by decide) (by decide)).1⟩

end Sentinel

namespace Sentinel

/-- C6 witness: with junk default message ⟨2, 7, 255, []⟩ (source 7)
at node 1, the 3-byte frame leaves a spurious record for node 7. -/
theorem deserialize_short_frame_processed_witness :
    tableFind (receiveStep 1 0 ⟨2, 7, 255, []⟩ [] [1, 2, 255] 3).1 7 ≠ none :=
  (deserialize_short_frame_processed 1 0 ⟨2, 7, 255, []⟩ []).2.2 (by decide)

end Sentinel
